import Mathlib

/-!
Shallow embedding of the TemPy widget layer (`tempy/widgets.py`): the table
widget `TempyTable` and the list widget `TempyList`/`TempyListMeta`.

Python tag trees are modelled structurally: a table is its body (a list of
rows, each row a list of cells), plus the header/footer containers and the
caption.  A cell holds an optional content value and an optional `class`
attribute.  Python exceptions are modelled by an error code paired with the
state of the tree at the moment the exception escapes (TemPy mutates trees in
place, so a failed call can leave partial mutations behind).

The Node primitives (`append_to`, `empty`, `remove`, `attr`, `apply_function`,
truthiness of a tag = "has children") come from the `tempy.tags` module, which
is outside the source under analysis; they are modelled from the spec's Node
contract (spec §6) where noted.
-/

namespace TemPy

/-- Python exceptions that the modelled code can raise.  `fnError` stands for
an arbitrary exception raised by a user-supplied transform function. -/
inductive PyErr : Type where
  | widgetDataError
  | widgetError
  | valueError
  | attributeError
  | fnError
deriving DecidableEq, Repr

/-- A table cell (`Td`/`Th`): at most one content child (the widget code only
ever places zero or one child in a cell), plus the `class` attribute that
`col_class` manipulates via `cell.attr(klass=...)`. -/
structure Cell (α : Type) where
  content : Option α
  klass : Option String := none
deriving DecidableEq, Repr

/-- A table row (`Tr`): its ordered cells. -/
abbrev Row (α : Type) := List (Cell α)

/-- A `TempyTable`: the `Tbody` contents, the list of `Thead` containers
appended by `_make_table_part` (each holding one row of `Th` cells), likewise
the `Tfoot` containers, and the caption.  `_make_table_part` appends a fresh
container on every call, hence the lists. -/
structure Table (α : Type) where
  body : List (Row α)
  headers : List (Row α) := []
  footers : List (Row α) := []
  caption : Option α := none
deriving DecidableEq, Repr

/-- A fresh cell holding the given (possibly absent) value, as built by
`Td().append_to(t_row)` followed by `t_cell.empty()` and `t_cell(d_cell)`. -/
def mkCell {α : Type} (v : Option α) : Cell α := { content := v }

/-- `TempyTable.clear`: `self.body.empty()` removes every row of the body and
keeps header/footer/caption containers intact. -/
def clear {α : Type} (t : Table α) : Table α := { t with body := [] }

/-- `TempyTable._check_row_size`, called by `populate` with the integer
`max_data_x` (so `len(row)` raises `TypeError` and `row_length` is the integer
itself): raises `WidgetDataError` when the body is non-empty and its widest
row is narrower than `row_length`. -/
def checkRowSize {α : Type} (body : List (Row α)) (rowLength : Nat) : Option PyErr :=
  if !body.isEmpty && (body.foldl (fun m r => Nat.max m r.length) 0) < rowLength then
    some .widgetDataError
  else
    none

/-- `max(map(len, data))` over the data rows (`data` non-empty). -/
def maxLen {α : Type} (d : List (List (Option α))) : Nat :=
  d.foldl (fun m r => Nat.max m r.length) 0

/-- Modelled from the spec: `AdjustableList.ljust` (from `tempy.tools`, not in
the analysed source) right-pads the row with `None` up to the target width
(spec §4.1: "every data row is right-padded with empty values to maxWidth"). -/
def ljust {α : Type} (r : List (Option α)) (n : Nat) : List (Option α) :=
  r ++ List.replicate (n - r.length) none

/-- The inner cell loop of `populate`:
`for t_cell, d_cell in zip_longest(t_row, d_row)`.  The enclosing row was
created by `Tr().append_to(self.body)` an instant earlier, so `t_row` has no
cells and every `t_cell` is `None`.  With `resize_x` a fresh `Td` is appended
and filled; without it `t_cell` stays `None` and `t_cell.empty()` raises
`AttributeError`, aborting with the partial (here: empty) row in place. -/
def buildCells {α : Type} (resizeX : Bool) : List (Option α) → Option PyErr × Row α
  | [] => (none, [])
  | c :: cs =>
    if resizeX then
      ((buildCells resizeX cs).1, mkCell c :: (buildCells resizeX cs).2)
    else
      (some .attributeError, [])

/-- The row loop of `populate`:
`for t_row, d_row in zip_longest(self.body, data)`.  `self.clear()` has just
emptied the body, so the body side of the pairing is exhausted immediately and
every `t_row` is `None`.  A falsy (empty) data row takes the
`if not d_row: t_row.remove()` branch, which raises `AttributeError` on the
`None` row; otherwise a fresh `Tr` is appended and its cells are built.  An
exception escaping the loop leaves the rows built so far (including the
partially built current row) in the body. -/
def buildRows {α : Type} (resizeX normalize : Bool) (maxX : Nat) :
    List (List (Option α)) → Option PyErr × List (Row α)
  | [] => (none, [])
  | r :: rs =>
    if r.isEmpty then
      (some .attributeError, [])
    else
      let r1 := if normalize then ljust r maxX else r
      match (buildCells resizeX r1).1 with
      | some err => (some err, [(buildCells resizeX r1).2])
      | none =>
        ((buildRows resizeX normalize maxX rs).1,
          (buildCells resizeX r1).2 :: (buildRows resizeX normalize maxX rs).2)

/-- `TempyTable.populate(data, resize_x, normalize)`.  Returns the escaping
exception (if any) together with the table state when the call returns or the
exception escapes.
Steps, in source order: reject `None` data with `WidgetDataError`;
`if not self.body: self(body=Tbody())` (replaces an *empty* body container —
structurally still an empty body); `self.clear()`; `max(map(len, data))`
(raises `ValueError` on empty `data`); the `_check_row_size` width check when
`resize_x` is false (performed on the just-cleared body); the pairing loop. -/
def populate {α : Type} (t : Table α) (data : Option (List (List (Option α))))
    (resizeX normalize : Bool) : Option PyErr × Table α :=
  match data with
  | none => (some .widgetDataError, t)
  | some d =>
    let t0 := clear t
    if d.isEmpty then
      (some .valueError, t0)
    else
      let maxX := maxLen d
      match (if resizeX then none else checkRowSize t0.body maxX) with
      | some e => (some e, t0)
      | none =>
        ((buildRows resizeX normalize maxX d).1,
          { t0 with body := (buildRows resizeX normalize maxX d).2 })

/-- The row of header/footer cells built by
`Tr()(inner_tag()(col) for col in data)`. -/
def mkPartRow {α : Type} (data : List α) : Row α :=
  data.map (fun v => mkCell (some v))

/-- `TempyTable._make_table_part` + `make_header`: `Thead().append_to(self)`
appends a *fresh* header container to the table on every call and fills it;
`setattr` only binds the `header` attribute the first time and never removes
the previous container. -/
def make_header {α : Type} (t : Table α) (h : List α) : Table α :=
  { t with headers := t.headers ++ [mkPartRow h] }

/-- `TempyTable.make_footer`, via the same `_make_table_part`. -/
def make_footer {α : Type} (t : Table α) (f : List α) : Table α :=
  { t with footers := t.footers ++ [mkPartRow f] }

/-- `cell.attr(klass=css_class)` (Node contract, spec §6). -/
def setKlass {α : Type} (css : String) (c : Cell α) : Cell α :=
  { c with klass := some css }

/-- The indexed branch of `TempyTable.col_class`: for every body row, first
`is_col_within_bounds(col_index, row)` — which *raises* `WidgetDataError` for
an out-of-range index instead of returning `False`, aborting the loop with the
earlier rows already mutated — then, when the cell at `col_index` is
non-empty, set its class attribute. -/
def colClassRows {α : Type} (css : String) (i : Nat) :
    List (Row α) → Option PyErr × List (Row α)
  | [] => (none, [])
  | r :: rs =>
    if h : i < r.length then
      let c := r.get ⟨i, h⟩
      let r1 := if c.content.isSome then r.set i (setKlass css c) else r
      ((colClassRows css i rs).1, r1 :: (colClassRows css i rs).2)
    else
      (some .widgetDataError, r :: rs)

/-- `TempyTable.col_class(css_class, col_index)`.  With no index the generator
`((row, cell) for row in self.body.childs for cell in row.childs)` visits
*every* cell of the body, empty or not, and sets the class attribute on each.
With an index the per-row bounds-checked loop `colClassRows` runs. -/
def col_class {α : Type} (css : String) (idx : Option Nat) (t : Table α) :
    Option PyErr × Table α :=
  match idx with
  | none => (none, { t with body := t.body.map (fun r => r.map (setKlass css)) })
  | some i =>
    ((colClassRows css i t.body).1, { t with body := (colClassRows css i t.body).2 })

/-- Modelled from the spec: `cell.apply_function(fn)` (from `tempy.tags`, not
in the analysed source) applies the transform to the cell's content
(spec §4.1: "apply a transform function to the content of each qualifying
non-empty cell"); an exception raised by `fn` escapes and the cell keeps its
old content.  `fn v = none` models `fn` raising on `v`.  Callers filter to
non-empty cells, so the `none`-content case is never reached; it leaves the
cell untouched. -/
def applyFunction {α : Type} (fn : α → Option α) (c : Cell α) : Except PyErr (Cell α) :=
  match c.content with
  | some v =>
    match fn v with
    | some w => .ok { c with content := some w }
    | none => .error .fnError
  | none => .ok c

/-- The loop of `TempyTable.apply_function_to_cells` over the generator of
non-empty cells of one row: cells are transformed in order; the first
exception aborts the loop, leaving the failing cell and every later cell
untouched (the cells already processed keep their new content).  The returned
error is the escaping exception, before the `ignore_errors` dispatch. -/
def applyCellsRow {α : Type} (fn : α → Option α) : Row α → Option PyErr × Row α
  | [] => (none, [])
  | c :: cs =>
    if c.content.isSome then
      match applyFunction fn c with
      | .ok c1 => ((applyCellsRow fn cs).1, c1 :: (applyCellsRow fn cs).2)
      | .error e => (some e, c :: cs)
    else
      ((applyCellsRow fn cs).1, c :: (applyCellsRow fn cs).2)

/-- `TempyTable.apply_function_to_cells(gen, fn, ignore_errors)` on the
non-empty cells of one row: the whole loop sits in one `try`; with
`ignore_errors` the exception is swallowed (`pass`), otherwise re-raised. -/
def apply_function_to_cells {α : Type} (fn : α → Option α) (ignore : Bool)
    (r : Row α) : Option PyErr × Row α :=
  ((if ignore then none else (applyCellsRow fn r).1), (applyCellsRow fn r).2)

/-- The row loop of `TempyTable.map_table`: each row gets its *own*
`apply_function_to_cells` call, hence its own `try`; with `ignore_errors` a
failing cell only aborts the rest of its row and later rows are still
processed, without it the first exception aborts the remaining rows. -/
def mapTableRows {α : Type} (fn : α → Option α) (ignore : Bool) :
    List (Row α) → Option PyErr × List (Row α)
  | [] => (none, [])
  | r :: rs =>
    match (apply_function_to_cells fn ignore r).1 with
    | some err => (some err, (apply_function_to_cells fn ignore r).2 :: rs)
    | none =>
      ((mapTableRows fn ignore rs).1,
        (apply_function_to_cells fn ignore r).2 :: (mapTableRows fn ignore rs).2)

/-- `TempyTable.map_table(format_function, ignore_errors)`. -/
def map_table {α : Type} (fn : α → Option α) (ignore : Bool) (t : Table α) :
    Option PyErr × Table α :=
  ((mapTableRows fn ignore t.body).1,
    { t with body := (mapTableRows fn ignore t.body).2 })

/-- The indexed loop of `TempyTable.map_col`: one `try` wraps the whole
column.  The generator's filter calls `is_col_within_bounds`, which *raises*
`WidgetDataError` for a row too short for the index — inside the same `try`,
so that error too is swallowed under `ignore_errors`.  The first exception
aborts the remaining rows of the column. -/
def mapColRows {α : Type} (fn : α → Option α) (i : Nat) :
    List (Row α) → Option PyErr × List (Row α)
  | [] => (none, [])
  | r :: rs =>
    if h : i < r.length then
      let c := r.get ⟨i, h⟩
      if c.content.isSome then
        match applyFunction fn c with
        | .ok c1 => ((mapColRows fn i rs).1, r.set i c1 :: (mapColRows fn i rs).2)
        | .error e => (some e, r :: rs)
      else
        ((mapColRows fn i rs).1, r :: (mapColRows fn i rs).2)
    else
      (some .widgetDataError, r :: rs)

/-- `TempyTable.map_col(col_function, col_index, ignore_errors)`.  With no
index it delegates to `self.map_table(col_function)`, which runs with
`map_table`'s *default* `ignore_errors=True` (the flag is not forwarded). -/
def map_col {α : Type} (fn : α → Option α) (idx : Option Nat) (ignore : Bool)
    (t : Table α) : Option PyErr × Table α :=
  match idx with
  | none => (none, (map_table fn true t).2)
  | some i =>
    ((if ignore then none else (mapColRows fn i t.body).1),
      { t with body := (mapColRows fn i t.body).2 })

/-- `TempyTable.is_row_within_bounds(row_index)`: `True` in bounds, raises
`WidgetDataError` otherwise (the non-negativity test holds for the `Nat`
embedding of a non-negative Python index). -/
def isRowWithinBounds {α : Type} (i : Nat) (t : Table α) : Except PyErr Bool :=
  if i < t.body.length then .ok true else .error .widgetDataError

/-- `TempyTable.map_row(row_function, row_index, ignore_errors)`.  With no
index it delegates to `self.map_table(row_function)` with `map_table`'s
default `ignore_errors=True`.  With an index, `is_row_within_bounds` is called
*outside* the `try`: its `WidgetDataError` always propagates; in bounds, the
row's non-empty cells go through `apply_function_to_cells`. -/
def map_row {α : Type} (fn : α → Option α) (idx : Option Nat) (ignore : Bool)
    (t : Table α) : Option PyErr × Table α :=
  match idx with
  | none => (none, (map_table fn true t).2)
  | some i =>
    match isRowWithinBounds i t with
    | .error e => (some e, t)
    | .ok _ =>
      let r := t.body.getD i []
      ((apply_function_to_cells fn ignore r).1,
        { t with body := t.body.set i (apply_function_to_cells fn ignore r).2 })

/-- The first exception the indexed `map_col` run meets, read off the column
itself: scanning rows in order, a row too short for the index yields the
bounds error, a non-empty cell on which `fn` raises yields that error; empty
cells and successfully transformed cells yield nothing. -/
def firstColError {α : Type} (fn : α → Option α) (i : Nat)
    (rows : List (Row α)) : Option PyErr :=
  rows.findSome? (fun r =>
    if h : i < r.length then
      match (r.get ⟨i, h⟩).content with
      | some v => (match fn v with | some _ => none | none => some PyErr.fnError)
      | none => none
    else
      some PyErr.widgetDataError)

/-! ### The list widget (`TempyList` / `TempyListMeta`) -/

/-- The three list tag classes the factory dispatches on. -/
inductive LKind : Type where
  | ul
  | ol
  | dl
deriving DecidableEq, Repr

/-- A `typ` token as accepted by `TempyList.__new__`: either a string naming a
tag class or a tag class itself.  Only the three list tags are modelled; a
string naming any other attribute of `tempy.tags` is modelled by the
unrecognized-name branch. -/
inductive TypTok : Type where
  | strTok (s : String)
  | clsTok (k : LKind)
deriving DecidableEq, Repr

mutual
/-- A Python structure fed to the list builder: a flat sequence (whose
elements may be `None`, hence `Option String`), or a mapping.  The reserved
`'_typ'` entry of a mapping is carried in a dedicated field (`dict` key order
for the remaining items is the `items` order). -/
inductive LStruct : Type where
  | lst (xs : List (Option String))
  | dct (typKey : Option TypTok) (items : List (Option String × DVal))

/-- A value of a mapping entry: `None`, a scalar, or a nested structure. -/
inductive DVal : Type where
  | nullv
  | scalar (s : String)
  | sub (st : LStruct)
end

mutual
/-- A built list tree: the root list tag and its children in order. -/
inductive LTree : Type where
  | mk (kind : LKind) (childs : List LItem)

/-- A child of a list tag: `Li(label)` with an optional nested sublist
appended into it, or a `Dt`/`Dd` of the definition-list path. -/
inductive LItem : Type where
  | li (label : Option String) (sub : Option LTree)
  | dt (label : Option String)
  | dd (label : Option String)
end

/-- The root tag of a built tree. -/
def LTree.kind : LTree → LKind
  | .mk k _ => k

/-- The children of a built tree. -/
def LTree.childs : LTree → List LItem
  | .mk _ cs => cs

/-- Python truthiness of a mapping value, as tested by `if submenu:`:
`None` and empty containers and the empty string are falsy; a mapping holding
only a `'_typ'` entry is a non-empty dict, hence truthy. -/
def DVal.truthy : DVal → Bool
  | .nullv => false
  | .scalar s => !(s == "")
  | .sub (.lst xs) => !xs.isEmpty
  | .sub (.dct tk items) => tk.isSome || !items.isEmpty

/-- `typ = struct.pop('_typ')` when `struct` is a mapping holding the reserved
key: yields the popped token and the mapping without it.  On any other
structure the `pop` raises (`TypeError`/`KeyError`/`AttributeError`), which
`__new__` swallows, leaving the structure unchanged. -/
def popTyp : LStruct → Option TypTok × LStruct
  | .dct (some tok) items => (some tok, .dct none items)
  | st => (none, st)

/-- The string/class resolution of `TempyList.__new__` (lines 396-400):
a string is looked up in `tempy.tags` — the three list tags resolve to their
classes, an unknown name raises `AttributeError` there, turned into
`WidgetError` ("TempyList type not expected."). -/
def resolveTok : Option TypTok → Except PyErr (Option LKind)
  | none => .ok none
  | some (.clsTok k) => .ok (some k)
  | some (.strTok s) =>
    if s == "Ul" then .ok (some .ul)
    else if s == "Ol" then .ok (some .ol)
    else if s == "Dl" then .ok (some .dl)
    else .error .widgetError

/-- The kind-resolution phase of `TempyList.__new__` (lines 392-401 plus the
`typ = typ or Ul` default): first the reserved key is popped from a mapping
`struct` — unconditionally, so it *overrides* an explicit `typ` argument —
then a string token is resolved against `tempy.tags`, then the default kind
is `Ul`.  Returns the resolved kind together with the (possibly popped)
structure handed on to `populate`. -/
def resolveTyp (typ : Option TypTok) (struct : Option LStruct) :
    Except PyErr (LKind × Option LStruct) :=
  let p : Option TypTok × Option LStruct :=
    match struct with
    | some st =>
      let (tok, st1) := popTyp st
      ((match tok with | some t2 => some t2 | none => typ), some st1)
    | none => (typ, none)
  match resolveTok p.1 with
  | .error e => .error e
  | .ok ot => .ok (ot.getD .ul, p.2)

/-- `dict(zip_longest(struct, [None]))` for a flat sequence: `zip_longest`
pads the shorter side, so an *empty* sequence still yields the single pair
`(None, None)`; otherwise every element is paired with `None`, and `dict`
collapses duplicate elements to their first occurrence. -/
def dictZip (xs : List (Option String)) : List (Option String × DVal) :=
  if xs.isEmpty then
    [(none, .nullv)]
  else
    (xs.foldl (fun acc x => if x ∈ acc then acc else acc ++ [x]) []).map
      (fun x => (x, .nullv))

/-- `TempyListMeta.__process_dl_struct`: each key becomes a `Dt`; a truthy
value adds `Dd` siblings — one per element for a sequence (or per *key* for a
mapping, since iterating a dict yields its keys; the reserved entry was
already popped by `__new__`), or a single `Dd` for a scalar.  A nested
structure is *not* recursed into on this path. -/
def processDl : List (Option String × DVal) → List LItem
  | [] => []
  | (key, v) :: rest =>
    LItem.dt key ::
      (if v.truthy then
        (match v with
        | .nullv => []
        | .scalar s => [LItem.dd (some s)]
        | .sub (.lst xs) => xs.map LItem.dd
        | .sub (.dct _ items) => items.map (fun p => LItem.dd p.1))
      else []) ++ processDl rest

/-- Popping the reserved key never makes a structure larger. -/
theorem popTyp_sizeOf_le (st : LStruct) : sizeOf (popTyp st).2 ≤ sizeOf st := by
  cases st with
  | lst xs => simp [popTyp]
  | dct tk items =>
    cases tk with
    | none => simp [popTyp]
    | some tok =>
      simp [popTyp]
      omega

mutual
/-- `TempyListMeta.populate(struct)` for a non-`None` structure, building the
root's children for the already-resolved kind.  A flat sequence is first
turned into a mapping by `dictZip`; since every value of that mapping is
`None`, the item loop provably takes no submenu branch, so the resulting
children are written directly (one childless `Li` per key).  The `Dl` kind
dispatches to `__process_dl_struct`, the others to `__process_li_struct`. -/
def lpopulate (k : LKind) : LStruct → Except PyErr (List LItem)
  | .lst xs =>
    let pairs := dictZip xs
    if k = .dl then
      .ok (processDl pairs)
    else
      .ok (pairs.map (fun p => LItem.li p.1 none))
  | .dct _tk items =>
    -- the reserved entry was popped by `TempyList.__new__` before `populate`
    -- runs, so only the remaining items are processed here.
    if k = .dl then
      .ok (processDl items)
    else
      processLi k items
termination_by st => sizeOf st
decreasing_by
  all_goals simp_wf

/-- `TempyListMeta.__process_li_struct`: each key becomes an `Li`; a truthy
value builds a nested `TempyList(typ=self._typ, struct=submenu)` appended
into that item.  The nested constructor call is inlined: its `__new__` pops
the reserved key from `submenu` (overriding the propagated kind), resolves
the token, and populates — a truthy scalar submenu reaches `populate` as
neither list nor dict and raises `WidgetDataError` there. -/
def processLi (k : LKind) : List (Option String × DVal) → Except PyErr (List LItem)
  | [] => .ok []
  | (key, v) :: rest =>
    if v.truthy then
      match v with
      | .nullv => .error .widgetDataError
      | .scalar _ => .error .widgetDataError
      | .sub st =>
        let tok := (popTyp st).1
        let st1 := (popTyp st).2
        let typ1 : Option TypTok :=
          match tok with
          | some t2 => some t2
          | none => some (.clsTok k)
        match resolveTok typ1 with
        | .error e => .error e
        | .ok ot =>
          match lpopulate (ot.getD .ul) st1 with
          | .error e => .error e
          | .ok subItems =>
            match processLi k rest with
            | .error e => .error e
            | .ok restItems =>
              .ok (LItem.li key (some (LTree.mk (ot.getD .ul) subItems)) :: restItems)
    else
      match processLi k rest with
      | .error e => .error e
      | .ok restItems => .ok (LItem.li key none :: restItems)
termination_by pairs => sizeOf pairs
decreasing_by
  all_goals simp_wf
  all_goals
    have hp := popTyp_sizeOf_le st
    omega
end

/-- `TempyList(typ=..., struct=...)`: kind resolution via `resolveTyp`, then
`TempyListMeta.__init__` populates; a `None` structure leaves the freshly
initialized (empty) list as is. -/
def tempyListNew (typ : Option TypTok) (struct : Option LStruct) :
    Except PyErr LTree :=
  match resolveTyp typ struct with
  | .error e => .error e
  | .ok (k, struct1) =>
    match struct1 with
    | none => .ok (LTree.mk k [])
    | some st =>
      match lpopulate k st with
      | .error e => .error e
      | .ok items => .ok (LTree.mk k items)

/-! ### Lemmas about `populate` -/

/-- Closed form of `populate` on non-null data: the body is first cleared, so
the width check is vacuous and both the escaping error and the resulting body
are functions of the data alone. -/
theorem populate_some_eq {α : Type} (t : Table α) (d : List (List (Option α)))
    (rx n : Bool) :
    populate t (some d) rx n =
      (if d.isEmpty then (some PyErr.valueError, { t with body := [] })
       else ((buildRows rx n (maxLen d) d).1,
             { t with body := (buildRows rx n (maxLen d) d).2 })) := by
  by_cases hd : d.isEmpty
  · simp [populate, clear, hd]
  · cases rx <;> simp [populate, clear, hd, checkRowSize]

/-- The error component of `populate` does not depend on the table. -/
theorem populate_fst_indep {α : Type} (t1 t2 : Table α)
    (d : List (List (Option α))) (rx n : Bool) :
    (populate t1 (some d) rx n).1 = (populate t2 (some d) rx n).1 := by
  rw [populate_some_eq, populate_some_eq]
  by_cases hd : d.isEmpty <;> simp [hd]

/-- The resulting body of `populate` does not depend on the table. -/
theorem populate_body_indep {α : Type} (t1 t2 : Table α)
    (d : List (List (Option α))) (rx n : Bool) :
    (populate t1 (some d) rx n).2.body = (populate t2 (some d) rx n).2.body := by
  rw [populate_some_eq, populate_some_eq]
  by_cases hd : d.isEmpty <;> simp [hd]

/-- With `resize_x`, the cell loop turns a data row into a row of fresh cells
holding the data values. -/
theorem buildCells_true {α : Type} (cs : List (Option α)) :
    buildCells true cs = (none, cs.map mkCell) := by
  induction cs with
  | nil => rfl
  | cons c cs ih => simp [buildCells, ih]

/-- Padding a row already at the target width is the identity. -/
theorem ljust_of_length_eq {α : Type} (r : List (Option α)) (n : Nat)
    (h : r.length = n) : ljust r n = r := by
  simp [ljust, h]

/-- `max(map(len, data))` over a non-empty rectangle of width `C` is `C`. -/
theorem maxLen_rect {α : Type} (d : List (List (Option α))) (C : Nat)
    (hne : d ≠ []) (hrect : ∀ r ∈ d, r.length = C) : maxLen d = C := by
  have aux : ∀ (l : List (List (Option α))) (a : Nat),
      (∀ r ∈ l, r.length = C) →
      l.foldl (fun m r => Nat.max m r.length) a
        = (if l.isEmpty then a else Nat.max a C) := by
    intro l
    induction l with
    | nil => intro a _; rfl
    | cons r rs ih =>
      intro a hr
      have hrl : r.length = C := hr r (by simp)
      have hrest : ∀ x ∈ rs, x.length = C := by
        intro x hx; exact hr x (List.mem_cons_of_mem r hx)
      simp only [List.foldl, hrl]
      rw [ih (Nat.max a C) hrest]
      simp only [List.isEmpty_cons]
      by_cases hrs : rs.isEmpty <;> simp [hrs, Nat.max_assoc]
  have hde : d.isEmpty = false := by
    cases d with
    | nil => exact absurd rfl hne
    | cons r rs => rfl
  rw [maxLen, aux d 0 hrect]
  simp [hde]

/-- On a non-empty rectangle with positive width, the row loop succeeds and
rebuilds exactly the data, row by row and cell by cell. -/
theorem buildRows_rect {α : Type} (d : List (List (Option α))) (C : Nat)
    (hC : 0 < C) (hrect : ∀ r ∈ d, r.length = C) :
    buildRows true true C d = (none, d.map (fun r => r.map mkCell)) := by
  induction d with
  | nil => rfl
  | cons r rs ih =>
    have hr : r.length = C := hrect r (by simp)
    have hrne : r.isEmpty = false := by
      cases r with
      | nil => simp at hr; omega
      | cons c cs => rfl
    have hrest : ∀ x ∈ rs, x.length = C := by
      intro x hx; exact hrect x (List.mem_cons_of_mem r hx)
    simp only [buildRows, hrne, Bool.false_eq_true, if_false,
      ljust_of_length_eq r C hr, if_true, buildCells_true,
      ih hrest]
    simp

/-! ### C8 — `populate(null)` raises `DataError` and changes nothing -/

/-- C8 (confirmed): for every table and both flags, `populate(None, ...)`
raises `WidgetDataError` before touching anything, so the body, headers,
footers and caption are all left exactly as they were. -/
theorem c8_populate_none_raises_and_preserves {α : Type} (t : Table α)
    (rx n : Bool) :
    populate t none rx n = (some PyErr.widgetDataError, t) := rfl

/-! ### C10 — `populate` is a full rebuild -/

/-- C10 (confirmed): under `resize_x=True, normalize=True` the outcome of
`populate` — the escaping error and the resulting body — is the same function
of the data for any two starting tables, however their bodies differ; in
particular populating any table is body-equal to populating a table whose body
is empty. -/
theorem c10_populate_full_rebuild {α : Type} (t1 t2 : Table α)
    (d : List (List (Option α))) :
    (populate t1 (some d) true true).1 = (populate t2 (some d) true true).1 ∧
    (populate t1 (some d) true true).2.body
      = (populate t2 (some d) true true).2.body := by
  exact ⟨populate_fst_indep t1 t2 d true true, populate_body_indep t1 t2 d true true⟩

/-! ### C9 — `populate` is idempotent -/

/-- C9 (confirmed): if `populate(data, resize_x=True, normalize=True)`
succeeds on a table, running it again with the same data on the result
succeeds as well and leaves the body structurally equal to the single run. -/
theorem c9_populate_idempotent {α : Type} (t : Table α)
    (d : List (List (Option α)))
    (h : (populate t (some d) true true).1 = none) :
    (populate (populate t (some d) true true).2 (some d) true true).1 = none ∧
    (populate (populate t (some d) true true).2 (some d) true true).2.body
      = (populate t (some d) true true).2.body := by
  constructor
  · rw [populate_fst_indep (populate t (some d) true true).2 t d true true]
    exact h
  · exact populate_body_indep (populate t (some d) true true).2 t d true true

/-- Witness for C9 at a concrete input: populating an empty table with
`[[1]]` succeeds, and repopulating is a no-op on the body. -/
theorem c9_populate_idempotent_witness :
    (populate (populate ({ body := [] } : Table Int)
        (some [[some 1]]) true true).2 (some [[some 1]]) true true).1 = none ∧
    (populate (populate ({ body := [] } : Table Int)
        (some [[some 1]]) true true).2 (some [[some 1]]) true true).2.body
      = (populate ({ body := [] } : Table Int)
          (some [[some 1]]) true true).2.body :=
  c9_populate_idempotent ({ body := [] } : Table Int) [[some 1]] (by decide)

/-! ### C5 — rectangular `populate` rebuilds exactly the data -/

/-- C5 (corrected): for R≥1 rows each of exactly C≥1 values, and any prior
table state, `populate(data, resize_x=True, normalize=True)` succeeds and the
body becomes exactly the R×C grid of the data values, a cell being present
but contentless exactly where the value is the explicit none. -/
theorem c5_populate_rectangular {α : Type} (t : Table α)
    (d : List (List (Option α))) (C : Nat) (hC : 0 < C) (hne : d ≠ [])
    (hrect : ∀ r ∈ d, r.length = C) :
    populate t (some d) true true
      = (none, { t with body := d.map (fun r => r.map mkCell) }) := by
  have hde : d.isEmpty = false := by
    cases d with
    | nil => exact absurd rfl hne
    | cons r rs => rfl
  rw [populate_some_eq]
  rw [maxLen_rect d C hne hrect]
  simp [hde, buildRows_rect d C hC hrect]

/-- Witness for C5 at a concrete input: a 2×2 grid with an explicit none. -/
theorem c5_populate_rectangular_witness :
    populate ({ body := [[mkCell (some 9)]] } : Table Int)
        (some [[some 1, none], [some 3, some 4]]) true true
      = (none, { body := [[mkCell (some 1), mkCell none],
                          [mkCell (some 3), mkCell (some 4)]] }) :=
  c5_populate_rectangular ({ body := [[mkCell (some 9)]] } : Table Int)
    [[some 1, none], [some 3, some 4]] 2 (by decide) (by decide) (by decide)

/-- C5 counterexample: the claim as stated covers every rectangular shape
R×C, including R = 0; but `populate([])` reaches `max(map(len, data))`,
which raises `ValueError` on an empty sequence instead of succeeding (and
the body has already been cleared by then). -/
theorem c5_counterexample_empty_data_fails :
    populate ({ body := [[mkCell (some 1)]] } : Table Int)
        (some ([] : List (List (Option Int)))) true true
      = (some PyErr.valueError, { body := [] }) := by decide

/-! ### C1 — the `resize_x=False` width check is dead code -/

/-- C1 (code_bug): the docstring of `populate` promises a `WidgetDataError`
when `resize_x=False` and the data is wider than the table, but the body is
cleared *before* `_check_row_size` runs, so the check can never fire; on a
1-column table and 2-column data the call instead dies with `AttributeError`
(`t_cell` is `None` and no `Td` is created without `resize_x`), leaving one
empty row behind. -/
theorem c1_width_check_never_fires :
    populate ({ body := [[mkCell (some 1)]] } : Table Int)
        (some [[some 1, some 2]]) false true
      = (some PyErr.attributeError, { body := [[]] }) ∧
    PyErr.attributeError ≠ PyErr.widgetDataError := by
  exact ⟨by decide, by decide⟩

/-! ### C3 — `make_header` appends instead of replacing -/

/-- C3 counterexample: two `make_header` calls on a fresh table leave *two*
header-row containers, not one — `_make_table_part` appends a fresh `Thead`
every time — so the table does not "contain exactly one header-row container
holding h2's values" as the claim states. -/
theorem c3_counterexample_header_duplicated :
    (make_header (make_header ({ body := [] } : Table Int) [1]) [2]).headers
        = [mkPartRow [1], mkPartRow [2]] ∧
    (make_header (make_header ({ body := [] } : Table Int) [1]) [2]).headers.length
        ≠ 1 := by
  exact ⟨by decide, by decide⟩

/-- C3 (corrected): `make_header(h1)` followed by `make_header(h2)` *appends*
two fresh header-row containers after whatever headers the table already had —
the first holding h1's values, the second h2's — and the `header` attribute
bound on the first call is never replaced; the body is untouched; the same
holds for `make_footer`. -/
theorem c3_make_header_appends {α : Type} (t : Table α) (h1 h2 : List α) :
    (make_header (make_header t h1) h2).headers
        = t.headers ++ [mkPartRow h1, mkPartRow h2] ∧
    (make_footer (make_footer t h1) h2).footers
        = t.footers ++ [mkPartRow h1, mkPartRow h2] ∧
    (make_header (make_header t h1) h2).body = t.body := by
  refine ⟨?_, ?_, rfl⟩ <;> simp [make_header, make_footer]

/-! ### C2 — `ignore_errors` aborts the batch instead of skipping the cell -/

/-- A concrete transform for the C2 counterexample: raises on `0`, increments
anything else. -/
def incButRaiseOnZero : Int → Option Int :=
  fun v => if v = 0 then none else some (v + 1)

/-- C2 counterexample: on a row `[0, 5]` where the transform raises on `0`
and would map `5` to `6`, `map_row(fn, 0, ignore_errors=True)` swallows the
error but leaves `5` untouched — the remaining qualifying cell is *not*
processed, contradicting the claim that every remaining qualifying cell still
is. -/
theorem c2_counterexample_remaining_cell_skipped :
    map_row incButRaiseOnZero (some 0) true
        ({ body := [[mkCell (some 0), mkCell (some 5)]] } : Table Int)
      = (none, { body := [[mkCell (some 0), mkCell (some 5)]] }) ∧
    incButRaiseOnZero 5 = some 6 := by
  exact ⟨by decide, by decide⟩

/-- With `ignore_errors` the per-row loop of `map_table` swallows each row's
error, so every row is processed independently. -/
theorem mapTableRows_true {α : Type} (fn : α → Option α) (rows : List (Row α)) :
    mapTableRows fn true rows
      = (none, rows.map (fun r => (applyCellsRow fn r).2)) := by
  induction rows with
  | nil => rfl
  | cons r rs ih => simp [mapTableRows, apply_function_to_cells, ih]

/-- The error the indexed `map_col` loop meets is the first failure along the
column: a row too short for the index, or a non-empty cell the transform
raises on. -/
theorem mapColRows_fst_eq_firstColError {α : Type} (fn : α → Option α)
    (i : Nat) (rows : List (Row α)) :
    (mapColRows fn i rows).1 = firstColError fn i rows := by
  induction rows with
  | nil => rfl
  | cons r rs ih =>
    by_cases h : i < r.length
    · simp only [mapColRows, firstColError, List.findSome?_cons, h, dif_pos]
      cases hc : (r.get ⟨i, h⟩).content with
      | none =>
        simp only [hc, Option.isSome_none, Bool.false_eq_true, if_false]
        simpa [firstColError] using ih
      | some v =>
        cases hv : fn v with
        | none =>
          have hc2 : r[i].content = some v := hc
          simp [mapColRows, applyFunction, hc2, hv, h]
        | some w =>
          simp only [hc, Option.isSome_some, if_true, applyFunction, hv]
          simpa [firstColError] using ih
    · simp [mapColRows, firstColError, List.findSome?_cons, h]

/-- C2 (corrected): with `ignore_errors=True` no error ever propagates, but a
cell the transform raises on aborts the remainder of its batch instead of
being merely skipped.  Concretely: the indexed `map_col` and `map_row` leave
the table in *exactly* the same state as the `ignore_errors=False` run (the
flag only suppresses the report; cells processed before the first failure
keep their new content — no rollback — and the failing cell and the rest of
the batch keep their old content); `map_table` gives each row its own `try`,
so a failure aborts only the rest of its row and every row is still processed
independently; for the indexed `map_row` an out-of-bounds row index raises
`WidgetDataError` regardless of the flag (checked outside the `try`); and
with `ignore_errors=False` the indexed `map_col` propagates the first failure
met along the column. -/
theorem c2_ignore_errors_aborts_batch {α : Type} (fn : α → Option α)
    (i : Nat) (t : Table α) :
    (map_col fn (some i) true t).1 = none ∧
    (map_col fn (some i) true t).2 = (map_col fn (some i) false t).2 ∧
    (i < t.body.length → (map_row fn (some i) true t).1 = none) ∧
    (map_row fn (some i) true t).2 = (map_row fn (some i) false t).2 ∧
    (map_table fn true t).1 = none ∧
    (map_table fn true t).2.body = t.body.map (fun r => (applyCellsRow fn r).2) ∧
    (map_col fn (some i) false t).1 = firstColError fn i t.body := by
  refine ⟨rfl, rfl, ?_, ?_, ?_, ?_, ?_⟩
  · intro h
    simp [map_row, isRowWithinBounds, h, apply_function_to_cells]
  · by_cases h : i < t.body.length <;>
      simp [map_row, isRowWithinBounds, h, apply_function_to_cells]
  · simp [map_table, mapTableRows_true]
  · simp [map_table, mapTableRows_true]
  · simp [map_col, mapColRows_fst_eq_firstColError]

/-- Witness for C2 at a concrete input, discharging the in-bounds hypothesis
of the `map_row` part: a 1-row, 1-cell table with the always-incrementing
restriction of the transform. -/
theorem c2_ignore_errors_aborts_batch_witness :
    (map_row incButRaiseOnZero (some 0) true
        ({ body := [[mkCell (some 5)]] } : Table Int)).1 = none :=
  (c2_ignore_errors_aborts_batch incButRaiseOnZero 0
      ({ body := [[mkCell (some 5)]] } : Table Int)).2.2.1 (by decide)

/-! ### C6 — `col_class` -/

/-- The column tagging the claim describes, written from its words: in one
row, set the class attribute on the cell at column `i` when that cell is
non-empty, and touch no other cell and no empty cell. -/
def setColClass {α : Type} (css : String) : Nat → Row α → Row α
  | _, [] => []
  | 0, c :: cs => (if c.content.isSome then setKlass css c else c) :: cs
  | i + 1, c :: cs => c :: setColClass css i cs

/-- In bounds, one step of the indexed `col_class` loop performs exactly the
claimed column tagging on the row. -/
theorem colClassRow_step_eq_setColClass {α : Type} (css : String)
    (r : Row α) (i : Nat) (h : i < r.length) :
    (if (r.get ⟨i, h⟩).content.isSome
      then r.set i (setKlass css (r.get ⟨i, h⟩)) else r) = setColClass css i r := by
  induction r generalizing i with
  | nil => simp at h
  | cons c cs ih =>
    cases i with
    | zero =>
      by_cases hc : c.content.isSome <;> simp [setColClass, hc]
    | succ j =>
      have hj : j < cs.length := by simpa using h
      have hih := ih j hj
      simp only [List.get_eq_getElem] at hih ⊢
      simp only [List.getElem_cons_succ, List.set_cons_succ, setColClass]
      by_cases hc : cs[j].content.isSome
      · rw [if_pos hc] at hih ⊢
        rw [hih]
      · rw [if_neg hc] at hih ⊢
        rw [← hih]

/-- When the index is in bounds for every row, the indexed `col_class` loop
raises nothing and performs the claimed column tagging row by row. -/
theorem colClassRows_of_lt {α : Type} (css : String) (i : Nat)
    (rows : List (Row α)) (hb : ∀ r ∈ rows, i < r.length) :
    colClassRows css i rows = (none, rows.map (setColClass css i)) := by
  induction rows with
  | nil => rfl
  | cons r rs ih =>
    have hr : i < r.length := hb r (by simp)
    have hrest : ∀ x ∈ rs, i < x.length := by
      intro x hx; exact hb x (List.mem_cons_of_mem r hx)
    simp only [colClassRows, hr, dif_pos, ih hrest,
      colClassRow_step_eq_setColClass css r i hr]
    simp

/-- C6 counterexample: with no column index, `col_class` iterates over *all*
cells of the body — the non-empty filter exists only in the indexed branch —
so a present-but-empty cell also receives the class attribute, contradicting
"on no empty cell". -/
theorem c6_counterexample_empty_cell_tagged :
    col_class "x" none ({ body := [[{ content := none }]] } : Table Int)
      = (none, { body := [[{ content := none, klass := some "x" }]] }) ∧
    ({ content := none, klass := some "x" } : Cell Int).content = none := by
  exact ⟨by decide, rfl⟩

/-- C6 (corrected): on a table whose body rows all have length `L` (and at
least one row), `col_class(css)` with *no* index sets the class on every cell
of the body, empty cells included; with an in-bounds index it sets the class
on exactly that column's non-empty cells, touching no other column; with an
index `≥ L` the per-row bounds check raises `WidgetDataError` (the check is
per row, so an empty body would make any index a silent no-op). -/
theorem c6_col_class {α : Type} (css : String) (t : Table α) (i L : Nat)
    (hrect : ∀ r ∈ t.body, r.length = L) (hne : t.body ≠ []) :
    col_class css none t
        = (none, { t with body := t.body.map (fun r => r.map (setKlass css)) }) ∧
    (i < L → col_class css (some i) t
        = (none, { t with body := t.body.map (setColClass css i) })) ∧
    (L ≤ i → (col_class css (some i) t).1 = some PyErr.widgetDataError) := by
  refine ⟨rfl, ?_, ?_⟩
  · intro h
    have hb : ∀ r ∈ t.body, i < r.length := by
      intro r hr; rw [hrect r hr]; exact h
    simp [col_class, colClassRows_of_lt css i t.body hb]
  · intro h
    cases hbody : t.body with
    | nil => exact absurd hbody hne
    | cons r rs =>
      have hr : r.length = L := by
        have : r ∈ t.body := by rw [hbody]; simp
        exact hrect r this
      have hnlt : ¬ i < r.length := by omega
      simp [col_class, hbody, colClassRows, hnlt]

/-- Witness for C6 at a concrete input: a 2×2 grid of non-empty cells; index
0 tags exactly column 0, index 5 raises the bounds error. -/
theorem c6_col_class_witness :
    col_class "x" (some 0)
        ({ body := [[mkCell (some 1), mkCell (some 2)],
                    [mkCell (some 3), mkCell (some 4)]] } : Table Int)
      = (none, { body := [[setKlass "x" (mkCell (some 1)), mkCell (some 2)],
                          [setKlass "x" (mkCell (some 3)), mkCell (some 4)]] }) ∧
    (col_class "x" (some 5)
        ({ body := [[mkCell (some 1), mkCell (some 2)],
                    [mkCell (some 3), mkCell (some 4)]] } : Table Int)).1
      = some PyErr.widgetDataError := by
  refine ⟨?_, ?_⟩
  · exact (c6_col_class "x"
      ({ body := [[mkCell (some 1), mkCell (some 2)],
                  [mkCell (some 3), mkCell (some 4)]] } : Table Int) 0 2
      (by decide) (by decide)).2.1 (by decide)
  · exact (c6_col_class "x"
      ({ body := [[mkCell (some 1), mkCell (some 2)],
                  [mkCell (some 3), mkCell (some 4)]] } : Table Int) 5 2
      (by decide) (by decide)).2.2 (by decide)

/-! ### C4 — `_typ` in the struct overrides the explicit kind argument -/

/-- C4 counterexample: an explicit ordered kind together with a spec mapping
carrying the reserved key for unordered resolves to *unordered* — `__new__`
pops `'_typ'` before ever looking at the explicit argument, so the reserved
key wins, not the argument as the claim states. -/
theorem c4_counterexample_typ_key_wins :
    resolveTyp (some (.clsTok .ol)) (some (.dct (some (.clsTok .ul)) []))
      = .ok (.ul, some (.dct none [])) ∧
    LKind.ul ≠ LKind.ol := by
  exact ⟨rfl, by decide⟩

/-- C4 (corrected): kind resolution consults the reserved `'_typ'` key of a
mapping spec *first* — when present it overrides any explicit kind argument
(the resolved outcome does not depend on the argument at all) — the explicit
argument is used only when the spec carries no reserved key, and the kind
defaults to unordered when neither is given. -/
theorem c4_kind_resolution_order (a tok : TypTok)
    (items : List (Option String × DVal)) (k : LKind)
    (xs : List (Option String)) :
    resolveTyp (some a) (some (.dct (some tok) items))
        = resolveTyp none (some (.dct (some tok) items)) ∧
    resolveTyp none (some (.dct (some (.clsTok k)) items))
        = .ok (k, some (.dct none items)) ∧
    resolveTyp (some (.clsTok k)) (some (.dct none items))
        = .ok (k, some (.dct none items)) ∧
    resolveTyp (some (.clsTok k)) (some (.lst xs)) = .ok (k, some (.lst xs)) ∧
    resolveTyp (some (.clsTok k)) none = .ok (k, none) ∧
    resolveTyp none (some (.dct none items)) = .ok (.ul, some (.dct none items)) ∧
    resolveTyp none none = .ok (.ul, none) := by
  exact ⟨rfl, rfl, rfl, rfl, rfl, rfl, rfl⟩

/-! ### C7 — flat sequences deduplicate through `dict(...)` -/

/-- Folding the dedup step over elements new to the accumulator appends them
in order. -/
theorem foldl_dedup_of_nodup (xs : List (Option String)) :
    ∀ (acc : List (Option String)), (∀ x ∈ xs, x ∉ acc) → xs.Nodup →
      xs.foldl (fun acc x => if x ∈ acc then acc else acc ++ [x]) acc
        = acc ++ xs := by
  induction xs with
  | nil => intro acc _ _; simp
  | cons x xs ih =>
    intro acc hnew hnd
    have hx : x ∉ acc := hnew x (by simp)
    have hnd2 := List.nodup_cons.mp hnd
    have hstep : ∀ y ∈ xs, y ∉ acc ++ [x] := by
      intro y hy
      simp only [List.mem_append, List.mem_singleton]
      rintro (hyc | hyx)
      · exact hnew y (List.mem_cons_of_mem x hy) hyc
      · exact hnd2.1 (hyx ▸ hy)
    simp only [List.foldl, hx, if_neg, if_false]
    rw [ih (acc ++ [x]) hstep hnd2.2]
    simp

/-- C7 counterexample: the flat sequence `['x', 'x']` is converted through
`dict(zip_longest(struct, [None]))`, which collapses the duplicate, so the
built list has a single item where the claim demands one item per element
(two). -/
theorem c7_counterexample_duplicates_collapse :
    tempyListNew (some (.clsTok .ul)) (some (.lst [some "x", some "x"]))
      = .ok (.mk .ul [.li (some "x") none]) ∧
    ([LItem.li (some "x") none] : List LItem).length ≠ 2 := by
  have hdict : dictZip [some "x", some "x"] = [(some "x", DVal.nullv)] := rfl
  have hpop : lpopulate .ul (.lst [some "x", some "x"])
      = .ok [LItem.li (some "x") none] := by
    simp [lpopulate, hdict]
  have hres : resolveTyp (some (.clsTok .ul)) (some (.lst [some "x", some "x"]))
      = .ok (.ul, some (.lst [some "x", some "x"])) := rfl
  refine ⟨?_, by decide⟩
  simp [tempyListNew, hres, hpop]

/-- C7 (corrected): for a *non-empty, duplicate-free* flat sequence and a
non-definition kind, each element becomes exactly one direct childless item
of the root, in sequence order — in particular `['x','y']` yields exactly the
two items `x` then `y`; duplicate elements are collapsed to their first
occurrence by the `dict` conversion, and the *empty* sequence yields one item
holding the null key (from `zip_longest` padding), not zero items. -/
theorem c7_flat_list (k : LKind) (hk : k ≠ .dl) (xs : List (Option String))
    (hne : xs ≠ []) (hnd : xs.Nodup) :
    tempyListNew (some (.clsTok k)) (some (.lst xs))
        = .ok (.mk k (xs.map (fun x => .li x none))) ∧
    tempyListNew (some (.clsTok .ul)) (some (.lst [some "x", some "y"]))
        = .ok (.mk .ul [.li (some "x") none, .li (some "y") none]) ∧
    tempyListNew (some (.clsTok .ul)) (some (.lst ([] : List (Option String))))
        = .ok (.mk .ul [.li none none]) := by
  have hde : xs.isEmpty = false := by
    cases xs with
    | nil => exact absurd rfl hne
    | cons x xs2 => rfl
  have hdict : dictZip xs = xs.map (fun x => (x, DVal.nullv)) := by
    rw [dictZip]
    rw [if_neg (by simp [hde])]
    rw [foldl_dedup_of_nodup xs [] (by simp) hnd]
    simp
  have hpop : lpopulate k (.lst xs)
      = .ok (xs.map (fun x => LItem.li x none)) := by
    simp only [lpopulate]
    rw [if_neg hk, hdict]
    simp [List.map_map, Function.comp]
  have hres : resolveTyp (some (.clsTok k)) (some (.lst xs))
      = .ok (k, some (.lst xs)) := rfl
  have hpop2 : lpopulate .ul (.lst [some "x", some "y"])
      = .ok [LItem.li (some "x") none, LItem.li (some "y") none] := by
    have hd2 : dictZip [some "x", some "y"]
        = [(some "x", DVal.nullv), (some "y", DVal.nullv)] := rfl
    simp [lpopulate, hd2]
  have hpop3 : lpopulate .ul (.lst ([] : List (Option String)))
      = .ok [LItem.li none none] := by
    have hd3 : dictZip ([] : List (Option String)) = [(none, DVal.nullv)] := rfl
    simp [lpopulate, hd3]
  refine ⟨?_, ?_, ?_⟩
  · simp [tempyListNew, hres, hpop]
  · simp [tempyListNew, hpop2,
      show resolveTyp (some (.clsTok .ul)) (some (.lst [some "x", some "y"]))
        = .ok (.ul, some (.lst [some "x", some "y"])) from rfl]
  · simp [tempyListNew, hpop3,
      show resolveTyp (some (.clsTok .ul)) (some (.lst ([] : List (Option String))))
        = .ok (.ul, some (.lst ([] : List (Option String)))) from rfl]

/-- Witness for C7 at a concrete input: an ordered list built from the
duplicate-free sequence `['a', 'b']`. -/
theorem c7_flat_list_witness :
    tempyListNew (some (.clsTok .ol)) (some (.lst [some "a", some "b"]))
      = .ok (.mk .ol [.li (some "a") none, .li (some "b") none]) :=
  (c7_flat_list .ol (by decide) [some "a", some "b"] (by decide) (by decide)).1

end TemPy
